import Mathlib

/-!
Shallow embedding of `rqt_plot/src/rqt_plot/data_plot/__init__.py` (the
`DataPlot` widget) and proofs about its curve bookkeeping, backend
selection/fallback, settings persistence and error behaviour.

Modelling conventions:
* Python exceptions are modelled by the `PyError` type; a method that can
  raise returns `Option PyError × DataPlot`, pairing the exception (if any)
  with the object state at the moment the exception propagates (the source
  raises before mutating in every fallible path, so that state is the input
  state).
* The three optional backend imports are modelled by three booleans; the
  class attribute `plot_types` is a function of them.  A backend widget
  instance is modelled as the ordered log of calls forwarded to it, which is
  all the facade can observe of it.
* Numeric data values are modelled as `Int`, curve dictionaries as
  association lists with Python-dict semantics (overwrite keeps position,
  new keys append).
-/

/-- Python exceptions that the embedded code can raise.
`dataPlotException` is the source's `DataPlotException` (the spec calls it
`CurveNotFoundError`); the others are builtin Python exception classes. -/
inductive PyError where
  | dataPlotException (msg : String)
  | runtimeError (msg : String)
  | nameError (missing : String)
  | attributeError (missing : String)
  | typeError (msg : String)
  | indexError (msg : String)
deriving Repr, DecidableEq

/-- One entry of the class attribute `DataPlot.plot_types` (source lines
78-97): a backend descriptor.  `widget_class` is `some k` when the
backend import succeeded (`k` identifies the widget class) and `none` when
the backend import failed and the module-level name was set to `None`.
`enabled` is computed at class-definition time as `<class> is not None`. -/
structure PlotType where
  title : String
  widget_class : Option Nat
  description : String
  enabled : Bool
deriving Repr, DecidableEq, Inhabited

/-- The fixed `plot_types` list of the source (lines 78-97), as a function
of which of the three backend imports succeeded. -/
def plot_types (pyqtgraphAvail matAvail qwtAvail : Bool) : List PlotType :=
  [ { title := "PyQtGraph"
      widget_class := if pyqtgraphAvail then some 0 else none
      description := "Based on PyQtGraph\n- installer: http://luke.campagnola.me/code/pyqtgraph"
      enabled := pyqtgraphAvail },
    { title := "MatPlot"
      widget_class := if matAvail then some 1 else none
      description := "Based on MatPlotLib\n- needs most CPU\n- needs matplotlib >= 1.1.0\n- if using PySide: PySide > 1.1.0"
      enabled := matAvail },
    { title := "QwtPlot"
      widget_class := if qwtAvail then some 2 else none
      description := "Based on QwtPlot\n- does not use timestamps\n- uses least CPU\n- needs Python Qwt bindings"
      enabled := qwtAvail } ]

/-- Module import of the source file (lines 39-55).  Each of the three
`try/except ImportError` blocks calls `qDebug(...)` in its handler, but
`qDebug` is never imported or defined in the module, so the first failed
backend import raises `NameError` and the whole module import fails. -/
def module_import_error (pyqtgraphImportOk matImportOk qwtImportOk : Bool) : Option PyError :=
  if !pyqtgraphImportOk then some (.nameError "qDebug")
  else if !matImportOk then some (.nameError "qDebug")
  else if !qwtImportOk then some (.nameError "qDebug")
  else none

/-- One call forwarded to the active backend widget. -/
inductive BackendEvent where
  | autoscrollEv (enabled : Bool)
  | addCurveEv (curve_id curve_name : String) (data_x data_y : List Int)
  | updateValuesEv (curve_id : String) (values_x values_y : List Int)
  | removeCurveEv (curve_id : String)
  | clearValuesEv (curve_id : String)
  | redrawEv
deriving Repr, DecidableEq

/-- A live backend widget instance: which widget class was constructed and
the ordered log of calls the facade has forwarded to it since construction. -/
structure BackendWidget where
  classIndex : Nat
  events : List BackendEvent
deriving Repr, DecidableEq

/-- One curve dictionary `{'x': ..., 'y': ..., 'name': ...}` (source line 230). -/
structure Curve where
  x : List Int
  y : List Int
  name : String
deriving Repr, DecidableEq

/-- The instance state of a `DataPlot` object.  The fields prefixed with an
underscore are the attributes set in `__init__` (source lines 110-122);
`autoscale_x`/`autoscale_y` are the distinct attributes created dynamically
by `setAutoscale` (source lines 303-306), absent (`none`) until first set. -/
structure DataPlot where
  _plot_index : Nat
  _autoscroll : Bool
  _autoscale_x : Bool
  _autoscale_y : Bool
  _data_plot_widget : Option BackendWidget
  _curves : List (String × Curve)
  autoscale_x : Option Bool
  autoscale_y : Option Bool
deriving Repr, DecidableEq

/-- Lookup in a Python dict modelled as an association list
(`self._curves[curve_id]` / `curve_id in self._curves`). -/
def curvesFind : List (String × Curve) → String → Option Curve
  | [], _ => none
  | p :: rest, curve_id => if p.1 = curve_id then some p.2 else curvesFind rest curve_id

/-- Assignment `self._curves[curve_id] = c`: overwrite in place when the key
exists, append otherwise (Python dict semantics). -/
def curvesInsert : List (String × Curve) → String → Curve → List (String × Curve)
  | [], curve_id, c => [(curve_id, c)]
  | p :: rest, curve_id, c =>
      if p.1 = curve_id then (curve_id, c) :: rest else p :: curvesInsert rest curve_id c

/-- Deletion `del self._curves[curve_id]` of the (unique) entry with that key. -/
def curvesErase : List (String × Curve) → String → List (String × Curve)
  | [], _ => []
  | p :: rest, curve_id => if p.1 = curve_id then rest else p :: curvesErase rest curve_id

/-- The pervasive pattern `if self._data_plot_widget: self._data_plot_widget.<call>`:
append forwarded calls to the active widget's log when one exists, silently
skip otherwise. -/
def pushEvents (s : DataPlot) (evs : List BackendEvent) : DataPlot :=
  match s._data_plot_widget with
  | some w => { s with _data_plot_widget := some { w with events := w.events ++ evs } }
  | none => s

/-- The `for index, plot_type in enumerate(self.plot_types): if plot_type['enabled']:
plot_index = index; break` scan of `_switch_data_plot_widget` (source lines
138-141): index of the first enabled descriptor. -/
def findFirstEnabled : List PlotType → Option Nat
  | [] => none
  | pt :: rest => if pt.enabled then some 0 else (findFirstEnabled rest).map (· + 1)

/-- The calls a freshly constructed backend widget receives during a switch
(source lines 154-162): one `autoscroll`, one `add_curve` per stored curve in
map order, and one final `redraw`. -/
def replayEvents (s : DataPlot) : List BackendEvent :=
  [BackendEvent.autoscrollEv s._autoscroll]
    ++ s._curves.map (fun p => BackendEvent.addCurveEv p.1 p.2.name p.2.x p.2.y)
    ++ [BackendEvent.redrawEv]

/-- `DataPlot._switch_data_plot_widget` (source lines 133-162).  Tears down
any current widget, then constructs the selected backend widget, applies
`autoscroll`, replays every stored curve into it and issues one `redraw`.
Out-of-range indices raise `IndexError` at the `self.plot_types[plot_index]`
access on line 136, and a `None` widget class raises `TypeError` at the
call on line 153 (after `_plot_index` was already reassigned and the old
widget released). -/
def _switch_data_plot_widget (pts : List PlotType) (s : DataPlot) (plot_index : Nat) :
    Option PyError × DataPlot :=
  if hlt : plot_index < pts.length then
    let plot_index :=
      if (pts.get ⟨plot_index, hlt⟩).enabled then plot_index
      else
        match findFirstEnabled pts with
        | some index => index
        | none => plot_index
    let s := { s with _plot_index := plot_index }
    let selected_plot := pts.getD plot_index default
    let s := { s with _data_plot_widget := none }
    match selected_plot.widget_class with
    | none => (some (.typeError "NoneType object is not callable"), s)
    | some k =>
        (none, { s with _data_plot_widget := some { classIndex := k, events := replayEvents s } })
  else
    (some (.indexError "list index out of range"), s)

/-- The attribute values set by `__init__` before the backend scan (source
lines 110-122). -/
def initialState : DataPlot :=
  { _plot_index := 0
    _autoscroll := true
    _autoscale_x := true
    _autoscale_y := true
    _data_plot_widget := none
    _curves := []
    autoscale_x := none
    autoscale_y := none }

/-- `DataPlot.__init__` (source lines 104-131).  When no plot type is
enabled, line 126 evaluates `QT_BINDING == 'pyside'`, but `QT_BINDING` is
never imported or defined in the module, so a `NameError` is raised before
the `raise RuntimeError` on line 127 can execute.  Otherwise the
constructor activates backend index 0 via `_switch_data_plot_widget`. -/
def DataPlot.__init__ (pts : List PlotType) : Option PyError × DataPlot :=
  let s := initialState
  let enabled_plot_types := pts.filter (·.enabled)
  if enabled_plot_types.isEmpty then
    (some (.nameError "QT_BINDING"), s)
  else
    _switch_data_plot_widget pts s s._plot_index

/-- The external settings store (`instance_settings`), a string-keyed
key-value map. -/
abbrev Settings := List (String × Nat)

/-- The settings store's `set_value(key, value)`. -/
def Settings.set_value : Settings → String → Nat → Settings
  | [], key, v => [(key, v)]
  | p :: rest, key, v =>
      if p.1 = key then (key, v) :: rest else p :: Settings.set_value rest key v

/-- The settings store's `value(key, default)`. -/
def Settings.value : Settings → String → Nat → Nat
  | [], _, d => d
  | p :: rest, key, d => if p.1 = key then p.2 else Settings.value rest key d

/-- `DataPlot.save_settings` (source lines 170-175): persists only
`self._plot_index` under the key `'plot_type'`. -/
def DataPlot.save_settings (s : DataPlot) (instance_settings : Settings) : Settings :=
  instance_settings.set_value "plot_type" s._plot_index

/-- `DataPlot.restore_settings` (source lines 177-181): reads
`'plot_type'` (default 0) and performs a full backend switch with it. -/
def DataPlot.restore_settings (s : DataPlot) (pts : List PlotType)
    (instance_settings : Settings) : Option PyError × DataPlot :=
  _switch_data_plot_widget pts s (instance_settings.value "plot_type" 0)

/-- `DataPlot.autoscroll` (source lines 198-202). -/
def DataPlot.autoscroll (s : DataPlot) (enabled : Bool := true) : DataPlot :=
  pushEvents { s with _autoscroll := enabled } [BackendEvent.autoscrollEv enabled]

/-- `DataPlot.redraw` (source lines 204-210). -/
def DataPlot.redraw (s : DataPlot) : DataPlot :=
  pushEvents s [BackendEvent.redrawEv]

/-- `DataPlot._get_curve` (source lines 212-217). -/
def DataPlot._get_curve (s : DataPlot) (curve_id : String) : Except PyError Curve :=
  match curvesFind s._curves curve_id with
  | some curve => .ok curve
  | none => .error (.dataPlotException ("No curve named " ++ curve_id ++ " in this DataPlot"))

/-- `DataPlot.add_curve` (source lines 219-232). -/
def DataPlot.add_curve (s : DataPlot) (curve_id curve_name : String)
    (data_x data_y : List Int) : DataPlot :=
  let curve : Curve := { x := data_x, y := data_y, name := curve_name }
  let s := { s with _curves := curvesInsert s._curves curve_id curve }
  pushEvents s [BackendEvent.addCurveEv curve_id curve_name data_x data_y]

/-- `DataPlot.remove_curve` (source lines 234-239). -/
def DataPlot.remove_curve (s : DataPlot) (curve_id : String) : DataPlot :=
  let s :=
    if (curvesFind s._curves curve_id).isSome then
      { s with _curves := curvesErase s._curves curve_id }
    else s
  pushEvents s [BackendEvent.removeCurveEv curve_id]

/-- `DataPlot.update_values` (source lines 241-254): `_get_curve` raises
before any mutation when the id is unknown; otherwise the new samples are
appended in place (`extend`) and forwarded. -/
def DataPlot.update_values (s : DataPlot) (curve_id : String)
    (values_x values_y : List Int) : Option PyError × DataPlot :=
  match s._get_curve curve_id with
  | .error e => (some e, s)
  | .ok curve =>
      let curve := { curve with x := curve.x ++ values_x, y := curve.y ++ values_y }
      let s := { s with _curves := curvesInsert s._curves curve_id curve }
      (none, pushEvents s [BackendEvent.updateValuesEv curve_id values_x values_y])

/-- Python truthiness of the `curve_id=None` parameter of `clear_values`:
`if curve_id:` is false for `None` and for the empty string. -/
def pyTruthyStr : Option String → Bool
  | some str => !(str == "")
  | none => false

/-- The per-curve reset of the clear-all loop (source lines 273-275). -/
def clearAllCurves : List (String × Curve) → List (String × Curve)
  | [] => []
  | (curve_id, c) :: rest => (curve_id, { c with x := [], y := [] }) :: clearAllCurves rest

/-- `DataPlot.clear_values` (source lines 256-277).  The truthy branch
(line 267) calls `self._check_curve_exists(curve_id)`, but no such method
exists anywhere in the class, so it raises `AttributeError` before touching
any state.  The falsy branch resets every curve's series to `[]` and
forwards a `clear_values` call per curve. -/
def DataPlot.clear_values (s : DataPlot) (curve_id : Option String := none) :
    Option PyError × DataPlot :=
  if pyTruthyStr curve_id then
    (some (.attributeError "_check_curve_exists"), s)
  else
    let s := { s with _curves := clearAllCurves s._curves }
    (none, pushEvents s (s._curves.map (fun p => BackendEvent.clearValuesEv p.1)))

/-- `DataPlot.setAutoscale` (source lines 293-306): writes the attributes
`autoscale_x`/`autoscale_y` (without underscore), not the `_autoscale_x`/
`_autoscale_y` attributes initialised by `__init__`. -/
def DataPlot.setAutoscale (s : DataPlot) (x : Option Bool := none)
    (y : Option Bool := none) : DataPlot :=
  let s := match x with
    | some b => { s with autoscale_x := some b }
    | none => s
  match y with
  | some b => { s with autoscale_y := some b }
  | none => s

/-- Number of `redraw` calls the active widget has received (0 when no
widget is active); used to state that curve mutations never redraw. -/
def redrawCount (s : DataPlot) : Nat :=
  match s._data_plot_widget with
  | some w => (w.events.filter (fun e => e = BackendEvent.redrawEv)).length
  | none => 0

/-- One public mutating call on a `DataPlot`, for reachability statements. -/
inductive Op where
  | addCurveOp (curve_id curve_name : String) (data_x data_y : List Int)
  | updateValuesOp (curve_id : String) (values_x values_y : List Int)
  | removeCurveOp (curve_id : String)
  | clearValuesOp (curve_id : Option String)
  | autoscrollOp (enabled : Bool)
  | setAutoscaleOp (x y : Option Bool)
  | redrawOp
  | switchOp (plot_index : Nat)
deriving Repr, DecidableEq

/-- Apply one call; for fallible calls the object keeps the state it had
when the exception propagated. -/
def applyOp (pts : List PlotType) (s : DataPlot) : Op → DataPlot
  | .addCurveOp curve_id curve_name data_x data_y => s.add_curve curve_id curve_name data_x data_y
  | .updateValuesOp curve_id values_x values_y => (s.update_values curve_id values_x values_y).2
  | .removeCurveOp curve_id => s.remove_curve curve_id
  | .clearValuesOp curve_id => (s.clear_values curve_id).2
  | .autoscrollOp enabled => s.autoscroll enabled
  | .setAutoscaleOp x y => s.setAutoscale x y
  | .redrawOp => s.redraw
  | .switchOp plot_index => (_switch_data_plot_widget pts s plot_index).2

/-- Run a sequence of calls. -/
def runOps (pts : List PlotType) (s : DataPlot) : List Op → DataPlot
  | [] => s
  | op :: rest => runOps pts (applyOp pts s op) rest

/-- A state is reachable when some call sequence produces it from a freshly
constructed `DataPlot`. -/
def Reachable (pts : List PlotType) (s : DataPlot) : Prop :=
  ∃ ops : List Op, s = runOps pts (DataPlot.__init__ pts).2 ops

/-- The selected index points at an enabled descriptor. -/
def idxEnabled (pts : List PlotType) (s : DataPlot) : Prop :=
  ∃ h : s._plot_index < pts.length, (pts.get ⟨s._plot_index, h⟩).enabled = true

/-- A concrete sample state: all three backends available, constructed, and
one curve `"a"` added. -/
def exampleState : DataPlot :=
  ((DataPlot.__init__ (plot_types true true true)).2).add_curve "a" "A" [1, 2] [3, 4]

theorem curvesFind_insert_self (cs : List (String × Curve)) (curve_id : String) (c : Curve) :
    curvesFind (curvesInsert cs curve_id c) curve_id = some c := by
  induction cs with
  | nil => simp [curvesInsert, curvesFind]
  | cons p rest ih =>
    by_cases h : p.1 = curve_id
    · simp [curvesInsert, curvesFind, h]
    · simp [curvesInsert, curvesFind, h, ih]

theorem curvesFind_insert_other (cs : List (String × Curve)) (curve_id other : String)
    (c : Curve) (h : other ≠ curve_id) :
    curvesFind (curvesInsert cs curve_id c) other = curvesFind cs other := by
  induction cs with
  | nil => simp [curvesInsert, curvesFind, Ne.symm h]
  | cons p rest ih =>
    by_cases hp : p.1 = curve_id
    · subst hp
      simp [curvesInsert, curvesFind, Ne.symm h]
    · simp [curvesInsert, curvesFind, hp, ih]

theorem switch_curves (pts : List PlotType) (s : DataPlot) (i : Nat) :
    ((_switch_data_plot_widget pts s i).2)._curves = s._curves := by
  unfold _switch_data_plot_widget
  by_cases hlt : i < pts.length
  · rw [dif_pos hlt]
    dsimp only
    split <;> rfl
  · rw [dif_neg hlt]

theorem switch_autoscale (pts : List PlotType) (s : DataPlot) (i : Nat) :
    ((_switch_data_plot_widget pts s i).2)._autoscale_x = s._autoscale_x ∧
    ((_switch_data_plot_widget pts s i).2)._autoscale_y = s._autoscale_y := by
  unfold _switch_data_plot_widget
  by_cases hlt : i < pts.length
  · rw [dif_pos hlt]
    dsimp only
    split <;> exact ⟨rfl, rfl⟩
  · rw [dif_neg hlt]
    exact ⟨rfl, rfl⟩

theorem switch_eq_of_ge (pts : List PlotType) (s : DataPlot) (i : Nat)
    (hge : ¬ i < pts.length) :
    _switch_data_plot_widget pts s i = (some (.indexError "list index out of range"), s) := by
  unfold _switch_data_plot_widget
  rw [dif_neg hge]

theorem switch_plot_index_of_lt (pts : List PlotType) (s : DataPlot) (i : Nat)
    (hlt : i < pts.length) :
    ((_switch_data_plot_widget pts s i).2)._plot_index =
      if (pts.get ⟨i, hlt⟩).enabled then i
      else match findFirstEnabled pts with
           | some index => index
           | none => i := by
  unfold _switch_data_plot_widget
  rw [dif_pos hlt]
  dsimp only
  split <;> rfl

theorem switch_widget_of_ok (pts : List PlotType) (s s' : DataPlot) (i : Nat)
    (h : _switch_data_plot_widget pts s i = (none, s')) :
    ∃ k, s'._data_plot_widget = some { classIndex := k, events := replayEvents s } := by
  unfold _switch_data_plot_widget at h
  by_cases hlt : i < pts.length
  · rw [dif_pos hlt] at h
    dsimp only at h
    split at h
    · exact absurd h (by simp)
    · next k heq =>
      injection h with h1 h2
      subst h2
      exact ⟨k, rfl⟩
  · rw [dif_neg hlt] at h
    exact absurd h (by simp)

theorem findFirstEnabled_enabled (pts : List PlotType) (j : Nat)
    (h : findFirstEnabled pts = some j) :
    ∃ hj : j < pts.length, (pts.get ⟨j, hj⟩).enabled = true := by
  induction pts generalizing j with
  | nil => simp [findFirstEnabled] at h
  | cons pt rest ih =>
    by_cases hpt : pt.enabled
    · rw [findFirstEnabled, if_pos hpt] at h
      obtain rfl : (0 : Nat) = j := Option.some.inj h
      exact ⟨by simp, hpt⟩
    · rw [findFirstEnabled, if_neg hpt] at h
      obtain ⟨j', hj', rfl⟩ := Option.map_eq_some'.mp h
      obtain ⟨hlt', hen'⟩ := ih j' hj'
      exact ⟨Nat.succ_lt_succ hlt', by simpa using hen'⟩

theorem findFirstEnabled_isSome (pts : List PlotType) (j : Nat) (hj : j < pts.length)
    (hen : (pts.get ⟨j, hj⟩).enabled = true) : ∃ k, findFirstEnabled pts = some k := by
  induction pts generalizing j with
  | nil => exact absurd hj (by simp)
  | cons pt rest ih =>
    by_cases hpt : pt.enabled
    · exact ⟨0, by rw [findFirstEnabled, if_pos hpt]⟩
    · cases j with
      | zero => exact absurd (by simpa using hen) hpt
      | succ j' =>
        obtain ⟨k, hk⟩ := ih j' (Nat.lt_of_succ_lt_succ hj) (by simpa using hen)
        exact ⟨k + 1, by rw [findFirstEnabled, if_neg hpt, hk]; rfl⟩

theorem findFirstEnabled_eq_of_least (pts : List PlotType) (j : Nat) (hj : j < pts.length)
    (hen : (pts.get ⟨j, hj⟩).enabled = true)
    (hmin : ∀ k (hk : k < pts.length), k < j → (pts.get ⟨k, hk⟩).enabled = false) :
    findFirstEnabled pts = some j := by
  induction pts generalizing j with
  | nil => exact absurd hj (by simp)
  | cons pt rest ih =>
    cases j with
    | zero =>
      have hpt : pt.enabled = true := by simpa using hen
      rw [findFirstEnabled, if_pos hpt]
    | succ j' =>
      have h0 : pt.enabled = false :=
        by simpa using hmin 0 (by simp) (Nat.succ_pos j')
      rw [findFirstEnabled, if_neg (by simp [h0])]
      have hrest : findFirstEnabled rest = some j' := by
        refine ih j' (Nat.lt_of_succ_lt_succ hj) (by simpa using hen) ?_
        intro k hk hkj
        simpa using hmin (k + 1) (Nat.succ_lt_succ hk) (Nat.succ_lt_succ hkj)
      rw [hrest]
      rfl

theorem pushEvents_plot_index (s : DataPlot) (evs : List BackendEvent) :
    (pushEvents s evs)._plot_index = s._plot_index := by
  unfold pushEvents
  split <;> rfl

theorem pushEvents_curves (s : DataPlot) (evs : List BackendEvent) :
    (pushEvents s evs)._curves = s._curves := by
  unfold pushEvents
  split <;> rfl

theorem pushEvents_autoscale (s : DataPlot) (evs : List BackendEvent) :
    (pushEvents s evs)._autoscale_x = s._autoscale_x ∧
    (pushEvents s evs)._autoscale_y = s._autoscale_y := by
  unfold pushEvents
  split <;> exact ⟨rfl, rfl⟩

theorem pushEvents_widget_some (s : DataPlot) (evs : List BackendEvent) (w : BackendWidget)
    (h : s._data_plot_widget = some w) :
    (pushEvents s evs)._data_plot_widget = some { w with events := w.events ++ evs } := by
  unfold pushEvents
  rw [h]

theorem pushEvents_widget_none (s : DataPlot) (evs : List BackendEvent)
    (h : s._data_plot_widget = none) :
    (pushEvents s evs)._data_plot_widget = none := by
  unfold pushEvents
  rw [h]
  exact h

theorem add_curve_plot_index (s : DataPlot) (curve_id curve_name : String)
    (data_x data_y : List Int) :
    (s.add_curve curve_id curve_name data_x data_y)._plot_index = s._plot_index := by
  unfold DataPlot.add_curve
  rw [pushEvents_plot_index]

theorem update_values_plot_index (s : DataPlot) (curve_id : String)
    (values_x values_y : List Int) :
    ((s.update_values curve_id values_x values_y).2)._plot_index = s._plot_index := by
  unfold DataPlot.update_values
  split
  · rfl
  · rw [pushEvents_plot_index]

theorem remove_curve_plot_index (s : DataPlot) (curve_id : String) :
    (s.remove_curve curve_id)._plot_index = s._plot_index := by
  unfold DataPlot.remove_curve
  rw [pushEvents_plot_index]
  split <;> rfl

theorem clear_values_plot_index (s : DataPlot) (curve_id : Option String) :
    ((s.clear_values curve_id).2)._plot_index = s._plot_index := by
  unfold DataPlot.clear_values
  split
  · rfl
  · rw [pushEvents_plot_index]

theorem autoscroll_plot_index (s : DataPlot) (enabled : Bool) :
    (s.autoscroll enabled)._plot_index = s._plot_index := by
  unfold DataPlot.autoscroll
  rw [pushEvents_plot_index]

theorem redraw_plot_index (s : DataPlot) :
    s.redraw._plot_index = s._plot_index := by
  unfold DataPlot.redraw
  rw [pushEvents_plot_index]

theorem setAutoscale_underscore_fields (s : DataPlot) (x y : Option Bool) :
    (s.setAutoscale x y)._autoscale_x = s._autoscale_x ∧
    (s.setAutoscale x y)._autoscale_y = s._autoscale_y := by
  unfold DataPlot.setAutoscale
  cases x <;> cases y <;> exact ⟨rfl, rfl⟩

theorem setAutoscale_plot_index (s : DataPlot) (x y : Option Bool) :
    (s.setAutoscale x y)._plot_index = s._plot_index := by
  unfold DataPlot.setAutoscale
  cases x <;> cases y <;> rfl

theorem switch_idxEnabled (pts : List PlotType) (s : DataPlot) (i : Nat)
    (h : idxEnabled pts s) :
    idxEnabled pts ((_switch_data_plot_widget pts s i).2) := by
  by_cases hlt : i < pts.length
  · rw [idxEnabled, switch_plot_index_of_lt pts s i hlt]
    by_cases hen : (pts.get ⟨i, hlt⟩).enabled
    · rw [if_pos hen]
      exact ⟨hlt, hen⟩
    · rw [if_neg hen]
      obtain ⟨hj, hje⟩ := h
      obtain ⟨k, hk⟩ := findFirstEnabled_isSome pts s._plot_index hj hje
      rw [hk]
      exact findFirstEnabled_enabled pts k hk
  · rw [switch_eq_of_ge pts s i hlt]
    exact h

theorem applyOp_idxEnabled (pts : List PlotType) (s : DataPlot) (op : Op)
    (h : idxEnabled pts s) : idxEnabled pts (applyOp pts s op) := by
  cases op with
  | addCurveOp curve_id curve_name data_x data_y =>
    unfold applyOp
    rw [idxEnabled, add_curve_plot_index]
    exact h
  | updateValuesOp curve_id values_x values_y =>
    unfold applyOp
    rw [idxEnabled, update_values_plot_index]
    exact h
  | removeCurveOp curve_id =>
    unfold applyOp
    rw [idxEnabled, remove_curve_plot_index]
    exact h
  | clearValuesOp curve_id =>
    unfold applyOp
    rw [idxEnabled, clear_values_plot_index]
    exact h
  | autoscrollOp enabled =>
    unfold applyOp
    rw [idxEnabled, autoscroll_plot_index]
    exact h
  | setAutoscaleOp x y =>
    unfold applyOp
    rw [idxEnabled, setAutoscale_plot_index]
    exact h
  | redrawOp =>
    unfold applyOp
    rw [idxEnabled, redraw_plot_index]
    exact h
  | switchOp i =>
    exact switch_idxEnabled pts s i h

theorem runOps_idxEnabled (pts : List PlotType) (ops : List Op) (s : DataPlot)
    (h : idxEnabled pts s) : idxEnabled pts (runOps pts s ops) := by
  induction ops generalizing s with
  | nil => exact h
  | cons op rest ih => exact ih (applyOp pts s op) (applyOp_idxEnabled pts s op h)

theorem init_idxEnabled (pts : List PlotType)
    (hinit : (DataPlot.__init__ pts).1 = none) :
    idxEnabled pts (DataPlot.__init__ pts).2 := by
  unfold DataPlot.__init__ at hinit ⊢
  by_cases hempty : (pts.filter (·.enabled)).isEmpty
  · rw [if_pos hempty] at hinit
    exact absurd hinit (by simp)
  · rw [if_neg hempty] at hinit ⊢
    have hne : pts.filter (·.enabled) ≠ [] := by
      intro hcon
      rw [hcon] at hempty
      exact hempty rfl
    obtain ⟨x, hx⟩ := List.exists_mem_of_ne_nil _ hne
    have hxp := List.mem_filter.mp hx
    obtain ⟨n, hn⟩ := List.mem_iff_get.mp hxp.1
    have hex : (pts.get n).enabled = true := by
      rw [hn]
      exact hxp.2
    have h0 : (0 : Nat) < pts.length := Nat.lt_of_le_of_lt (Nat.zero_le n.1) n.2
    show idxEnabled pts ((_switch_data_plot_widget pts initialState 0).2)
    rw [idxEnabled, switch_plot_index_of_lt pts initialState 0 h0]
    by_cases hen : (pts.get ⟨0, h0⟩).enabled
    · rw [if_pos hen]
      exact ⟨h0, hen⟩
    · rw [if_neg hen]
      obtain ⟨k, hk⟩ := findFirstEnabled_isSome pts n.1 n.2 hex
      rw [hk]
      exact findFirstEnabled_enabled pts k hk

theorem Settings.value_set_value (st : Settings) (key : String) (v d : Nat) :
    Settings.value (Settings.set_value st key v) key d = v := by
  induction st with
  | nil => simp [Settings.set_value, Settings.value]
  | cons p rest ih =>
    by_cases h : p.1 = key
    · simp [Settings.set_value, Settings.value, h]
    · simp [Settings.set_value, Settings.value, h, ih]

theorem pushEvents_redrawCount_no_redraw (s : DataPlot) (evs : List BackendEvent)
    (h : evs.filter (fun e => e = BackendEvent.redrawEv) = []) :
    redrawCount (pushEvents s evs) = redrawCount s := by
  unfold redrawCount pushEvents
  cases hw : s._data_plot_widget with
  | none => simp [hw]
  | some w => simp [hw, List.filter_append, h]

theorem clearAllCurves_mem (cs : List (String × Curve)) (pc : String × Curve)
    (h : pc ∈ clearAllCurves cs) : pc.2.x = [] ∧ pc.2.y = [] := by
  induction cs with
  | nil => simp [clearAllCurves] at h
  | cons p rest ih =>
    obtain ⟨cid, c⟩ := p
    rw [clearAllCurves] at h
    rcases List.mem_cons.mp h with h1 | h2
    · subst h1
      exact ⟨rfl, rfl⟩
    · exact ih h2

theorem clearAllCurves_keys (cs : List (String × Curve)) :
    (clearAllCurves cs).map (fun p => (p.1, p.2.name)) = cs.map (fun p => (p.1, p.2.name)) := by
  induction cs with
  | nil => rfl
  | cons p rest ih =>
    obtain ⟨cid, c⟩ := p
    simp [clearAllCurves, ih]

theorem init_autoscale_fields (pts : List PlotType) :
    ((DataPlot.__init__ pts).2)._autoscale_x = true ∧
    ((DataPlot.__init__ pts).2)._autoscale_y = true := by
  unfold DataPlot.__init__
  dsimp only
  split
  · exact ⟨rfl, rfl⟩
  · exact switch_autoscale pts initialState 0

theorem foldl_setAutoscale_underscore (calls : List (Option Bool × Option Bool)) (s : DataPlot) :
    ((calls.foldl (fun t c => t.setAutoscale c.1 c.2) s)._autoscale_x = s._autoscale_x ∧
     (calls.foldl (fun t c => t.setAutoscale c.1 c.2) s)._autoscale_y = s._autoscale_y) := by
  induction calls generalizing s with
  | nil => exact ⟨rfl, rfl⟩
  | cons c rest ih =>
    rw [List.foldl_cons]
    refine ⟨?_, ?_⟩
    · rw [(ih (s.setAutoscale c.1 c.2)).1, (setAutoscale_underscore_fields s c.1 c.2).1]
    · rw [(ih (s.setAutoscale c.1 c.2)).2, (setAutoscale_underscore_fields s c.1 c.2).2]

/-- C1: switching the active backend never changes the `curves` map, and on
success the new backend widget's call log is exactly the replay of every
stored curve followed by one redraw (switch is data-preserving). -/
theorem backend_switch_is_data_preserving (pts : List PlotType) (s : DataPlot) (i : Nat) :
    ((_switch_data_plot_widget pts s i).2)._curves = s._curves ∧
    (∀ s', _switch_data_plot_widget pts s i = (none, s') →
      ∃ k, s'._data_plot_widget = some { classIndex := k, events := replayEvents s }) :=
  ⟨switch_curves pts s i, fun s' h => switch_widget_of_ok pts s s' i h⟩

theorem backend_switch_is_data_preserving_witness :
    ((_switch_data_plot_widget (plot_types true true true) exampleState 1).2)._curves =
      exampleState._curves ∧
    (∃ k, ((_switch_data_plot_widget (plot_types true true true) exampleState 1).2)._data_plot_widget =
      some { classIndex := k, events := replayEvents exampleState }) :=
  ⟨(backend_switch_is_data_preserving (plot_types true true true) exampleState 1).1,
   (backend_switch_is_data_preserving (plot_types true true true) exampleState 1).2
     ((_switch_data_plot_widget (plot_types true true true) exampleState 1).2) rfl⟩

/-- C2: `update_values` on an id that is not in the curves map raises the
curve-not-found exception and returns with the whole state unchanged. -/
theorem update_values_unknown_id_fails (s : DataPlot) (curve_id : String)
    (values_x values_y : List Int) (h : curvesFind s._curves curve_id = none) :
    s.update_values curve_id values_x values_y =
      (some (.dataPlotException ("No curve named " ++ curve_id ++ " in this DataPlot")), s) := by
  unfold DataPlot.update_values DataPlot._get_curve
  rw [h]

theorem update_values_unknown_id_fails_witness :
    initialState.update_values "a" [1] [2] =
      (some (.dataPlotException ("No curve named " ++ "a" ++ " in this DataPlot")), initialState) :=
  update_values_unknown_id_fails initialState "a" [1] [2] rfl

/-- C3: with zero backends available the module itself fails to import with
`NameError` (undefined `qDebug`), and even `__init__` run in that state
raises `NameError` (undefined `QT_BINDING`) rather than the documented
`RuntimeError`; no backend instance is constructed. -/
theorem init_zero_backends_raises_name_error :
    module_import_error false false false = some (.nameError "qDebug") ∧
    DataPlot.__init__ (plot_types false false false) =
      (some (.nameError "QT_BINDING"), initialState) ∧
    ((DataPlot.__init__ (plot_types false false false)).2)._data_plot_widget = none :=
  ⟨rfl, rfl, rfl⟩

/-- C4: with curve `"a"` present, `clear_values("a")` raises
`AttributeError` (the code calls the undefined method `_check_curve_exists`)
and leaves the curve's data intact, instead of resetting its series. -/
theorem clear_values_known_id_attribute_error :
    curvesFind exampleState._curves "a" = some { x := [1, 2], y := [3, 4], name := "A" } ∧
    exampleState.clear_values (some "a") =
      (some (.attributeError "_check_curve_exists"), exampleState) :=
  ⟨rfl, rfl⟩

/-- C5: selecting an enabled backend index activates exactly that index with
no fallback; selecting a disabled index falls back silently to the first
enabled descriptor found scanning forward from index 0. -/
theorem select_backend_fallback (pts : List PlotType) (s : DataPlot) (i : Nat)
    (hlt : i < pts.length) :
    ((pts.get ⟨i, hlt⟩).enabled = true →
      ((_switch_data_plot_widget pts s i).2)._plot_index = i) ∧
    ((pts.get ⟨i, hlt⟩).enabled = false →
      ∀ j (hj : j < pts.length), (pts.get ⟨j, hj⟩).enabled = true →
        (∀ k (hk : k < pts.length), k < j → (pts.get ⟨k, hk⟩).enabled = false) →
        ((_switch_data_plot_widget pts s i).2)._plot_index = j) := by
  constructor
  · intro hen
    rw [switch_plot_index_of_lt pts s i hlt, if_pos hen]
  · intro hen j hj hje hmin
    rw [switch_plot_index_of_lt pts s i hlt, if_neg (by simp only [hen]; decide)]
    rw [findFirstEnabled_eq_of_least pts j hj hje hmin]

theorem select_backend_fallback_witness :
    ((_switch_data_plot_widget (plot_types false true false) initialState 0).2)._plot_index = 1 :=
  (select_backend_fallback (plot_types false true false) initialState 0 (by decide)).2
    (by decide) 1 (by decide) (by decide)
    (fun k hk hk1 => by
      have hk0 : k = 0 := Nat.lt_one_iff.mp hk1
      subst hk0
      rfl)

/-- C6: the concrete scenario: after `add_curve("a","A",[1,2],[3,4])`,
`update_values("a",[5],[6])` succeeds and appends, giving x=[1,2,5] and
y=[3,4,6]; after `remove_curve("a")`, `update_values("a",[1],[1])` raises
the curve-not-found exception and changes nothing. -/
theorem scenario_append_then_curve_not_found :
    (exampleState.update_values "a" [5] [6]).1 = none ∧
    curvesFind (((exampleState.update_values "a" [5] [6]).2))._curves "a" =
      some { x := [1, 2, 5], y := [3, 4, 6], name := "A" } ∧
    ((((exampleState.update_values "a" [5] [6]).2).remove_curve "a").update_values "a" [1] [1]).1 =
      some (.dataPlotException "No curve named a in this DataPlot") ∧
    ((((exampleState.update_values "a" [5] [6]).2).remove_curve "a").update_values "a" [1] [1]).2 =
      (((exampleState.update_values "a" [5] [6]).2).remove_curve "a") :=
  ⟨rfl, rfl, rfl, rfl⟩

/-- C7: `add_curve` stores the full series under the id with last-write-wins
overwrite semantics (no error when the id exists), leaves every other curve
alone, forwards exactly one `add_curve` call to the active backend when one
exists (none otherwise), and never triggers a redraw. -/
theorem add_curve_overwrite_forward_no_redraw (s : DataPlot) (curve_id curve_name : String)
    (data_x data_y : List Int) :
    curvesFind ((s.add_curve curve_id curve_name data_x data_y))._curves curve_id =
      some { x := data_x, y := data_y, name := curve_name } ∧
    (∀ other, other ≠ curve_id →
      curvesFind ((s.add_curve curve_id curve_name data_x data_y))._curves other =
        curvesFind s._curves other) ∧
    (∀ w, s._data_plot_widget = some w →
      ((s.add_curve curve_id curve_name data_x data_y))._data_plot_widget =
        some { classIndex := w.classIndex, events := w.events ++ [BackendEvent.addCurveEv curve_id curve_name data_x data_y] }) ∧
    (s._data_plot_widget = none →
      ((s.add_curve curve_id curve_name data_x data_y))._data_plot_widget = none) ∧
    redrawCount (s.add_curve curve_id curve_name data_x data_y) = redrawCount s := by
  refine ⟨?_, ?_, ?_, ?_, ?_⟩
  · unfold DataPlot.add_curve
    dsimp only
    rw [pushEvents_curves]
    exact curvesFind_insert_self s._curves curve_id _
  · intro other hother
    unfold DataPlot.add_curve
    dsimp only
    rw [pushEvents_curves]
    exact curvesFind_insert_other s._curves curve_id other _ hother
  · intro w hw
    unfold DataPlot.add_curve
    dsimp only
    exact pushEvents_widget_some _ _ w hw
  · intro hw
    unfold DataPlot.add_curve
    dsimp only
    exact pushEvents_widget_none _ _ hw
  · unfold DataPlot.add_curve
    dsimp only
    rw [pushEvents_redrawCount_no_redraw _
      [BackendEvent.addCurveEv curve_id curve_name data_x data_y] rfl]
    rfl

theorem add_curve_overwrite_forward_no_redraw_witness :
    curvesFind ((exampleState.add_curve "a" "B" [9] [8]))._curves "a" =
      some { x := [9], y := [8], name := "B" } ∧
    curvesFind ((exampleState.add_curve "a" "B" [9] [8]))._curves "b" =
      curvesFind exampleState._curves "b" ∧
    redrawCount (exampleState.add_curve "a" "B" [9] [8]) = redrawCount exampleState :=
  ⟨(add_curve_overwrite_forward_no_redraw exampleState "a" "B" [9] [8]).1,
   (add_curve_overwrite_forward_no_redraw exampleState "a" "B" [9] [8]).2.1 "b" (by decide),
   (add_curve_overwrite_forward_no_redraw exampleState "a" "B" [9] [8]).2.2.2.2⟩

/-- C8: `save_settings` persists only the selected backend index under the
key `'plot_type'`; `restore_settings` on those settings performs a full
backend switch with exactly that index, and for every reachable state of a
successfully constructed facade the switch reactivates the same index. -/
theorem save_restore_roundtrip (pts : List PlotType) (st : Settings) (s t : DataPlot)
    (hinit : (DataPlot.__init__ pts).1 = none) (hs : Reachable pts s) :
    (t.restore_settings pts (s.save_settings st)) =
      _switch_data_plot_widget pts t s._plot_index ∧
    ((t.restore_settings pts (s.save_settings st)).2)._plot_index = s._plot_index := by
  obtain ⟨ops, rfl⟩ := hs
  obtain ⟨hlt, hen⟩ := runOps_idxEnabled pts ops _ (init_idxEnabled pts hinit)
  unfold DataPlot.restore_settings DataPlot.save_settings
  rw [Settings.value_set_value]
  exact ⟨rfl, by rw [switch_plot_index_of_lt pts t _ hlt, if_pos hen]⟩

theorem save_restore_roundtrip_witness :
    (((DataPlot.__init__ (plot_types true true true)).2).restore_settings (plot_types true true true)
      (((DataPlot.__init__ (plot_types true true true)).2).save_settings ([] : Settings))).2._plot_index =
      ((DataPlot.__init__ (plot_types true true true)).2)._plot_index :=
  (save_restore_roundtrip (plot_types true true true) ([] : Settings)
    ((DataPlot.__init__ (plot_types true true true)).2)
    ((DataPlot.__init__ (plot_types true true true)).2) rfl ⟨[], rfl⟩).2

/-- C9: `clear_values` called with the empty string takes the clear-all
branch (the id is tested for truthiness): it raises nothing, empties the
series of every stored curve, and keeps every id and display name. -/
theorem clear_values_empty_string_clears_all (s : DataPlot) :
    (s.clear_values (some "")).1 = none ∧
    (∀ pc, pc ∈ (((s.clear_values (some "")).2))._curves → pc.2.x = [] ∧ pc.2.y = []) ∧
    (((s.clear_values (some "")).2))._curves.map (fun p => (p.1, p.2.name)) =
      s._curves.map (fun p => (p.1, p.2.name)) := by
  unfold DataPlot.clear_values
  rw [if_neg (by decide)]
  dsimp only
  refine ⟨rfl, ?_, ?_⟩
  · intro pc hpc
    rw [pushEvents_curves] at hpc
    exact clearAllCurves_mem s._curves pc hpc
  · rw [pushEvents_curves]
    exact clearAllCurves_keys s._curves

theorem clear_values_empty_string_clears_all_witness :
    (exampleState.clear_values (some "")).1 = none ∧
    (("a", ({ x := [], y := [], name := "A" } : Curve)).2.x = [] ∧
     ("a", ({ x := [], y := [], name := "A" } : Curve)).2.y = []) :=
  ⟨(clear_values_empty_string_clears_all exampleState).1,
   (clear_values_empty_string_clears_all exampleState).2.1
     ("a", { x := [], y := [], name := "A" }) (by decide)⟩

/-- C10: `setAutoscale` writes the attributes `autoscale_x`/`autoscale_y`
and never the `_autoscale_x`/`_autoscale_y` fields set by `__init__`, so
after any sequence of `setAutoscale` calls both underscore fields are still
`true`. -/
theorem setAutoscale_preserves_underscore_autoscale (pts : List PlotType)
    (calls : List (Option Bool × Option Bool)) :
    (∀ s : DataPlot, ∀ x y : Option Bool,
      (s.setAutoscale x y)._autoscale_x = s._autoscale_x ∧
      (s.setAutoscale x y)._autoscale_y = s._autoscale_y) ∧
    (calls.foldl (fun t c => t.setAutoscale c.1 c.2) (DataPlot.__init__ pts).2)._autoscale_x = true ∧
    (calls.foldl (fun t c => t.setAutoscale c.1 c.2) (DataPlot.__init__ pts).2)._autoscale_y = true := by
  refine ⟨setAutoscale_underscore_fields, ?_, ?_⟩
  · rw [(foldl_setAutoscale_underscore calls _).1, (init_autoscale_fields pts).1]
  · rw [(foldl_setAutoscale_underscore calls _).2, (init_autoscale_fields pts).2]
